import Mathlib

/-!
Verification development for the virtual try-on studio
(outfit history store + generation gateway).

The definitions below are shallow embeddings of the TypeScript source:
the App component's state and handlers (history, undo/redo, pose cache,
wardrobe, save/load) and the gateway's retry/backoff wrapper and
style-score parsing from services/geminiService.ts.
-/

set_option maxRecDepth 4000

/-- `WardrobeItem` from types: id, name, url. -/
structure WardrobeItem where
  id : String
  name : String
  url : String
deriving Repr, DecidableEq

/-- `OutfitLayer`: optional garment plus pose-label → image-url mapping.
The mapping is an association list preserving insertion order, mirroring
a JS object's string-keyed fields. -/
structure OutfitLayer where
  garment : Option WardrobeItem
  poseImages : List (String × String)
deriving Repr, DecidableEq

/-- An outfit snapshot is an ordered list of layers. -/
abbrev Snapshot := List OutfitLayer

/-- `POSE_INSTRUCTIONS` constant from the App component. -/
def POSE_INSTRUCTIONS : List String :=
  [ "Full frontal view, hands on hips"
  , "Slightly turned, 3/4 view"
  , "Side profile view"
  , "Jumping in the air, mid-action shot"
  , "Walking towards camera"
  , "Leaning against a wall"
  ]

/-- `defaultWardrobe` from wardrobe.ts. -/
def defaultWardrobe : List WardrobeItem :=
  [ ⟨"studio-sweat", "Oversized Sweat", "https://raw.githubusercontent.com/ammaarreshi/app-images/refs/heads/main/gemini-sweat-2.png"⟩
  , ⟨"studio-tee", "Signature Tee", "https://raw.githubusercontent.com/ammaarreshi/app-images/refs/heads/main/Gemini-tee.png"⟩
  , ⟨"studio-jacket", "Utility Jacket", "https://images.unsplash.com/photo-1591047139829-d91aecb6caea?q=80&w=1000&auto=format&fit=crop"⟩
  , ⟨"studio-dress", "Silk Slip Dress", "https://images.unsplash.com/photo-1595777457583-95e059d581b8?q=80&w=1000&auto=format&fit=crop"⟩
  , ⟨"studio-blazer", "Studio Blazer", "https://images.unsplash.com/photo-1548126032-079a0fb0099d?q=80&w=1000&auto=format&fit=crop"⟩
  , ⟨"studio-knit", "Cashmere Knit", "https://images.unsplash.com/photo-1620799140408-edc6dcb6d633?q=80&w=1000&auto=format&fit=crop"⟩
  ]

/-- `StyleScore` value: `{ score, review }`. -/
structure StyleScore where
  score : Int
  review : String
deriving Repr, DecidableEq

/-- The App component's state: `useState` hooks of part_002.
`historyStep` is an `Int` because it is initialised to `-1`. -/
structure AppState where
  modelImageUrl : Option String
  history : List Snapshot
  historyStep : Int
  isLoading : Bool
  currentPoseIndex : Nat
  wardrobe : List WardrobeItem
  styleScore : Option StyleScore
deriving Repr, DecidableEq

/-- The initial state of the App component. -/
def initialState : AppState :=
  { modelImageUrl := none
  , history := []
  , historyStep := -1
  , isLoading := false
  , currentPoseIndex := 0
  , wardrobe := defaultWardrobe
  , styleScore := none
  }

/-- `currentOutfitHistory` memo: `history[historyStep] || []`
(JS indexing with a negative or out-of-range index yields `undefined`,
hence the empty list). -/
def currentOutfitHistory (s : AppState) : Snapshot :=
  if s.historyStep < 0 then []
  else ((s.history.get? s.historyStep.toNat).getD [])

/-- `POSE_INSTRUCTIONS[i]`, with JS out-of-range indexing turning the
key into the string form of `undefined`. -/
def poseAt (i : Nat) : String :=
  POSE_INSTRUCTIONS.getD i "undefined"

/-- JS truthiness of an optional string: `undefined` and `""` are falsy. -/
def truthyStr (o : Option String) : Bool :=
  match o with
  | none => false
  | some u => u ≠ ""

/-- `displayImageUrl` memo: the last layer's image at the current pose,
falling back to the first stored pose image, else the model image /
null.  The trailing `|| null` in the source maps an empty string to
null. -/
def displayImageUrl (s : AppState) : Option String :=
  let cur := currentOutfitHistory s
  if cur.length = 0 then s.modelImageUrl
  else
    match cur.getLast? with
    | none => s.modelImageUrl
    | some currentLayer =>
      let poseInstruction := poseAt s.currentPoseIndex
      let r :=
        match List.lookup poseInstruction currentLayer.poseImages with
        | some u => some u
        | none => (currentLayer.poseImages.head?).map Prod.snd
      match r with
      | some u => if u = "" then none else some u
      | none => none

/-- `addToHistory`: truncate after the cursor, append, move cursor to
the new last index. -/
def addToHistory (s : AppState) (newOutfitHistory : Snapshot) : AppState :=
  let newHistory := s.history.take (s.historyStep + 1).toNat ++ [newOutfitHistory]
  { s with history := newHistory
         , historyStep := (newHistory.length : Int) - 1 }

/-- `undo`: if cursor > 0, decrement it, reset pose index, clear score. -/
def undo (s : AppState) : AppState :=
  if s.historyStep > 0 then
    { s with historyStep := s.historyStep - 1
           , currentPoseIndex := 0
           , styleScore := none }
  else s

/-- `redo`: if cursor < last index, increment it, reset pose index,
clear score. -/
def redo (s : AppState) : AppState :=
  if s.historyStep < (s.history.length : Int) - 1 then
    { s with historyStep := s.historyStep + 1
           , currentPoseIndex := 0
           , styleScore := none }
  else s

/-- Operations of the history state machine for the linearity claim. -/
inductive HOp where
  | commit (snap : Snapshot)
  | hundo
  | hredo
deriving Repr

/-- One step of the history state machine. -/
def applyHOp (s : AppState) : HOp → AppState
  | .commit snap => addToHistory s snap
  | .hundo => undo s
  | .hredo => redo s

/-- Run a sequence of commit/undo/redo operations from the empty
initial history. -/
def runOps (ops : List HOp) : AppState :=
  ops.foldl applyHOp initialState

/-- The history invariant: when the snapshot list is non-empty the
cursor is in range. -/
def histInv (s : AppState) : Prop :=
  s.history ≠ [] → 0 ≤ s.historyStep ∧ s.historyStep < (s.history.length : Int)

/-- JS object spread `\x7b...m, [k]: v\x7d` on a string-keyed object:
an existing key keeps its position and gets the new value, a fresh key
is appended. -/
def objSpreadSet (m : List (String × String)) (k v : String) : List (String × String) :=
  if (List.lookup k m).isSome then
    m.map (fun p => if p.1 = k then (k, v) else p)
  else m ++ [(k, v)]

/-- `handleGarmentSelect` (success path): guard on `displayImageUrl`
and `isLoading`, build a single-pose layer for the garment keyed at the
current pose, commit it, clear the style score.  `newImageUrl` stands
for the resolved result of `generateVirtualTryOnImage`. -/
def handleGarmentSelect (s : AppState) (garmentInfo : WardrobeItem)
    (newImageUrl : String) : AppState :=
  if s.isLoading ∨ (displayImageUrl s).isNone then s
  else
    let currentPoseInstruction := poseAt s.currentPoseIndex
    let newLayer : OutfitLayer :=
      { garment := some garmentInfo
      , poseImages := [(currentPoseInstruction, newImageUrl)] }
    let s1 := addToHistory s (currentOutfitHistory s ++ [newLayer])
    { s1 with styleScore := none, isLoading := false }

/-- `handleRemoveLastGarment`: only when more than one layer exists,
commit the snapshot without its last layer, reset pose index, clear
score. -/
def handleRemoveLastGarment (s : AppState) : AppState :=
  if (currentOutfitHistory s).length > 1 then
    let s1 := addToHistory s (currentOutfitHistory s).dropLast
    { s1 with currentPoseIndex := 0, styleScore := none }
  else s

/-- `handlePoseSelect` (success path): guards, cache hit on the last
layer's `poseImages`, otherwise commit a snapshot whose last layer has
the new pose image added.  `genUrl` stands for the resolved result of
`generatePoseVariation`; the returned Bool records whether that
generation call was issued. -/
def handlePoseSelect (s : AppState) (newIndex : Nat) (genUrl : String) :
    AppState × Bool :=
  if s.isLoading ∨ (currentOutfitHistory s).length = 0 ∨ newIndex = s.currentPoseIndex then
    (s, false)
  else
    let pose := poseAt newIndex
    let cur := currentOutfitHistory s
    match cur.getLast? with
    | none => (s, false)
    | some layer =>
      if truthyStr (List.lookup pose layer.poseImages) then
        ({ s with currentPoseIndex := newIndex }, false)
      else
        match layer.poseImages.head? with
        | none => (s, false)
        | some firstBinding =>
          if firstBinding.2 = "" then (s, false)
          else
            let newLayer := { layer with poseImages := objSpreadSet layer.poseImages pose genUrl }
            let newSnap := cur.dropLast ++ [newLayer]
            let s1 := addToHistory { s with currentPoseIndex := newIndex } newSnap
            ({ s1 with isLoading := false }, true)

/-- Second word of the colour name: `color.split(c)[1]` with a space. -/
def colorSecondWord (color : String) : String :=
  (color.splitOn " ").getD 1 "undefined"

/-- `handleRecolor` (success path): guard on the layer's garment and
the loading latch; append one recoloured WardrobeItem to the wardrobe.
`genUrl` stands for the resolved result of `generateColorway`, `now`
for `Date.now()`; the trailing `setTimeout` leaves `isLoading` false. -/
def handleRecolor (s : AppState) (layerIndex : Nat) (color : String)
    (genUrl : String) (now : Nat) : AppState :=
  match (currentOutfitHistory s).get? layerIndex with
  | none => s
  | some layer =>
    match layer.garment with
    | none => s
    | some g =>
      if s.isLoading then s
      else
        let newGarment : WardrobeItem :=
          { g with id := "recolor-" ++ toString now
                 , name := g.name ++ " (" ++ colorSecondWord color ++ ")"
                 , url := genUrl }
        { s with wardrobe := s.wardrobe ++ [newGarment], isLoading := false }

/-- The persisted session record written to the single local-storage
slot by `handleSaveOutfit`. -/
structure SaveRecord where
  modelImageUrl : Option String
  outfitHistory : Snapshot
  wardrobe : List WardrobeItem
deriving Repr, DecidableEq

/-- `String.startsWith` on the id prefix used by `handleSaveOutfit`. -/
def idIsRecolor (w : WardrobeItem) : Bool :=
  "recolor-".data.isPrefixOf w.id.data

/-- `handleSaveOutfit`: no-op when the current snapshot is empty,
otherwise the record written wholesale to storage (current snapshot
only, wardrobe without recolour items). -/
def handleSaveOutfit (s : AppState) : Option SaveRecord :=
  if (currentOutfitHistory s).length = 0 then none
  else some
    { modelImageUrl := s.modelImageUrl
    , outfitHistory := currentOutfitHistory s
    , wardrobe := s.wardrobe.filter (fun w => !(idIsRecolor w)) }

/-- `handleLoadOutfit` on a present stored record: set the model image
and `addToHistory(parsed.outfitHistory)`; with no record only an error
message is set. -/
def handleLoadOutfit (s : AppState) (stored : Option SaveRecord) : AppState :=
  match stored with
  | none => s
  | some parsed =>
    addToHistory { s with modelImageUrl := parsed.modelImageUrl } parsed.outfitHistory

/-- The startup `useEffect` restore path: when a record with a truthy
model image exists, replace history with the single restored snapshot
at cursor 0 and merge the saved wardrobe items with fresh ids. -/
def startupRestore (s : AppState) (stored : Option SaveRecord) : AppState :=
  match stored with
  | none => s
  | some parsed =>
    match parsed.modelImageUrl with
    | none => s
    | some url =>
      if url = "" then s
      else
        { s with modelImageUrl := some url
               , history := [parsed.outfitHistory]
               , historyStep := 0
               , wardrobe := s.wardrobe ++
                   parsed.wardrobe.filter
                     (fun sw => !(s.wardrobe.any (fun p => p.id = sw.id))) }

/-- Does `pat` occur as a contiguous substring of `s`?  Embeds JS
`String.prototype.includes`. -/
def hasSubList (pat : List Char) : List Char → Bool
  | [] => pat.isEmpty
  | c :: rest => pat.isPrefixOf (c :: rest) || hasSubList pat rest

/-- `message.includes(pat)` for strings. -/
def strIncludes (s pat : String) : Bool :=
  hasSubList pat.data s.data

/-- Gateway constants from services/geminiService.ts. -/
def MAX_RETRIES : Nat := 3

def RETRY_DELAY_MS : Nat := 1000

def REQUEST_TIMEOUT_MS : Nat := 60000

/-- The message of the error produced by `withTimeout` when an attempt
exceeds `REQUEST_TIMEOUT_MS`. -/
def timeoutMessage : String := "Request timeout - please try again"

/-- The non-retryable classification inside `retryWithBackoff`: safety
filter, API-key / 403 authentication, or invalid-request messages. -/
def nonRetryableMsg (m : String) : Bool :=
  strIncludes m "SAFETY" || strIncludes m "API_KEY" ||
    strIncludes m "403" || strIncludes m "invalid"

/-- `retryWithBackoff`: run the attempt; rethrow non-retryable errors
immediately; otherwise, while retries remain, sleep `delay` and retry
with a doubled delay.  `fn k` is the outcome of the k-th attempt
(0-based); the returned list collects the backoff delays performed, so
the number of attempts made is `length + 1`. -/
def retryWithBackoff {α : Type} (fn : Nat → Except String α) :
    Nat → Nat → Nat → Except String α × List Nat
  | retries, delay, k =>
    match fn k with
    | .ok v => (.ok v, [])
    | .error m =>
      if nonRetryableMsg m then (.error m, [])
      else
        match retries with
        | 0 => (.error m, [])
        | r + 1 =>
          let res := retryWithBackoff fn r (delay * 2) (k + 1)
          (res.1, delay :: res.2)

/-- A JSON value, for the critique response payload. -/
inductive JValue where
  | jnull
  | jbool (b : Bool)
  | jnum (n : Int)
  | jstr (s : String)
  | jarr (xs : List JValue)
  | jobj (fields : List (String × JValue))
deriving Repr

/-- Field access `result.k` on a parsed JSON value. -/
def jGet (v : JValue) (k : String) : Option JValue :=
  match v with
  | .jobj fields => List.lookup k fields
  | _ => none

/-- The fixed fallback critique returned by `generateStyleScore` when
the response cannot be parsed/validated. -/
def scoreFallback : StyleScore :=
  { score := 85
  , review := "A sophisticated ensemble that demonstrates strong fashion sensibility with excellent composition and contemporary appeal." }

/-- The validation in `generateStyleScore`: the parsed value must have
a numeric `score` field and a string `review` field. -/
def scoreWellFormed (parsed : Option JValue) : Bool :=
  match parsed with
  | none => false
  | some v =>
    match jGet v "score", jGet v "review" with
    | some (.jnum _), some (.jstr _) => true
    | _, _ => false

/-- The parse/validate/fallback tail of `generateStyleScore`: an absent
or unparsable text (`none`) or a shape failing the typeof checks
resolves to the fixed fallback; otherwise the two declared fields are
returned. -/
def scoreFromParsed (parsed : Option JValue) : StyleScore :=
  match parsed with
  | none => scoreFallback
  | some v =>
    match jGet v "score", jGet v "review" with
    | some (.jnum n), some (.jstr r) => { score := n, review := r }
    | _, _ => scoreFallback

/-- One attempt of `generateStyleScore`: a failed request propagates
its error; a successful request always resolves, via the parse
fallback.  `requestResult` is the outcome of the awaited API call, with
the response text already parsed (`none` = empty or unparsable). -/
def generateStyleScoreAttempt (requestResult : Except String (Option JValue)) :
    Except String StyleScore :=
  match requestResult with
  | .error e => .error e
  | .ok parsed => .ok (scoreFromParsed parsed)

/-- `generateStyleScore`: the attempt wrapped in `retryWithBackoff`
with the reduced retry count 2 and the default base delay. -/
def generateStyleScoreModel (responses : Nat → Except String (Option JValue)) :
    Except String StyleScore × List Nat :=
  retryWithBackoff (fun k => generateStyleScoreAttempt (responses k)) 2 RETRY_DELAY_MS 0

/-- Concrete layers and states used as inputs below. -/
def baseLayerA : OutfitLayer :=
  { garment := none
  , poseImages := [("Full frontal view, hands on hips", "data:image/png;base64,AAA")] }

def garmentLayerB : OutfitLayer :=
  { garment := some ⟨"studio-tee", "Signature Tee", "https://example/tee.png"⟩
  , poseImages := [("Full frontal view, hands on hips", "data:image/png;base64,BBB")] }

def stateC2 : AppState :=
  { modelImageUrl := some "data:image/png;base64,AAA"
  , history := [[baseLayerA], [baseLayerA, garmentLayerB]]
  , historyStep := 1
  , isLoading := false
  , currentPoseIndex := 0
  , wardrobe := defaultWardrobe
  , styleScore := none }

def stateC5 : AppState :=
  { modelImageUrl := some "data:image/png;base64,AAA"
  , history := [[baseLayerA]]
  , historyStep := 0
  , isLoading := false
  , currentPoseIndex := 1
  , wardrobe := []
  , styleScore := none }

def garmentC5 : WardrobeItem :=
  ⟨"studio-jacket", "Utility Jacket", "https://example/jacket.png"⟩

def layerTwoPoses : OutfitLayer :=
  { garment := none
  , poseImages :=
      [ ("Full frontal view, hands on hips", "data:image/png;base64,AAA")
      , ("Slightly turned, 3/4 view", "data:image/png;base64,CCC") ] }

def stateC9 : AppState :=
  { modelImageUrl := some "data:image/png;base64,AAA"
  , history := [[layerTwoPoses]]
  , historyStep := 0
  , isLoading := false
  , currentPoseIndex := 0
  , wardrobe := []
  , styleScore := some ⟨90, "great"⟩ }

/-- An operation that fails with a retryable network error on its first
three attempts and succeeds on the fourth. -/
def fnFourth : Nat → Except String String :=
  fun k => if k = 3 then .ok "data:done" else .error "network error"

/-- An operation failing retryably twice, then succeeding. -/
def twoFailThenOk : Nat → Except String String :=
  fun k => if k ≤ 1 then .error "network error" else .ok "data:done"

/-- An operation rejected by the safety filter on every attempt. -/
def safetyFailFn : Nat → Except String String :=
  fun _ => .error "SAFETY: The studio's safety filters flagged this image. Please use a professional-style portrait."

/-- An operation that times out once, then succeeds. -/
def timeoutThenOkFn : Nat → Except String String :=
  fun k => if k = 0 then .error timeoutMessage else .ok "data:done"

/-- A critique response whose text parses to a bare string instead of
the expected object shape. -/
def unparsableResponses : Nat → Except String (Option JValue) :=
  fun _ => .ok (some (.jstr "oops"))

theorem histInv_initial : histInv initialState := by
  intro h
  simp [initialState] at h

theorem addToHistory_historyStep (s : AppState) (snap : Snapshot) :
    (addToHistory s snap).historyStep =
      ((addToHistory s snap).history.length : Int) - 1 := by
  simp [addToHistory]

theorem histInv_applyHOp (s : AppState) (op : HOp) (h : histInv s) :
    histInv (applyHOp s op) := by
  cases op with
  | commit snap =>
    intro _
    simp only [applyHOp, addToHistory]
    constructor <;> simp
  | hundo =>
    simp only [applyHOp, undo]
    split
    · rename_i hgt
      intro hne
      dsimp only at hne ⊢
      have hi := h hne
      omega
    · exact h
  | hredo =>
    simp only [applyHOp, redo]
    split
    · rename_i hlt
      intro hne
      dsimp only at hne ⊢
      have hi := h hne
      omega
    · exact h

theorem histInv_runOps (ops : List HOp) : histInv (runOps ops) := by
  induction ops using List.reverseRecOn with
  | nil => exact histInv_initial
  | append_singleton ops op ih =>
    have : runOps (ops ++ [op]) = applyHOp (runOps ops) op := by
      simp [runOps, List.foldl_append]
    rw [this]
    exact histInv_applyHOp _ _ ih

/-- C1: starting from the empty history, every sequence of
commit/undo/redo operations preserves the cursor invariant
`0 ≤ historyStep < length` (whenever the list is non-empty), and
immediately after any commit the cursor sits at the last index, i.e.
the redo branch is empty. -/
theorem history_linearity_invariant (ops : List HOp) :
    histInv (runOps ops) ∧
      ∀ snap : Snapshot,
        (runOps (ops ++ [HOp.commit snap])).historyStep =
          ((runOps (ops ++ [HOp.commit snap])).history.length : Int) - 1 := by
  refine ⟨histInv_runOps ops, ?_⟩
  intro snap
  have : runOps (ops ++ [HOp.commit snap]) =
      addToHistory (runOps ops) snap := by
    simp [runOps, List.foldl_append, applyHOp]
  rw [this]
  exact addToHistory_historyStep _ _

theorem currentOutfitHistory_congr (s t : AppState)
    (h1 : s.history = t.history) (h2 : s.historyStep = t.historyStep) :
    currentOutfitHistory s = currentOutfitHistory t := by
  unfold currentOutfitHistory
  rw [h1, h2]

theorem currentOutfitHistory_addToHistory (s : AppState) (snap : Snapshot) :
    currentOutfitHistory (addToHistory s snap) = snap := by
  have hstep : (addToHistory s snap).historyStep =
      ((s.history.take (s.historyStep + 1).toNat).length : Int) := by
    unfold addToHistory
    dsimp only
    simp only [List.length_append, List.length_singleton]
    push_cast
    omega
  have hhist : (addToHistory s snap).history =
      s.history.take (s.historyStep + 1).toNat ++ [snap] := rfl
  unfold currentOutfitHistory
  rw [hstep, hhist]
  rw [if_neg (by omega)]
  rw [Int.toNat_natCast, List.get?_concat_length]
  rfl

/-- C2 counterexample: on a state with a two-snapshot history,
`handleLoadOutfit` after `handleSaveOutfit` yields a history of length
3 with cursor 2 — not a single-element timeline with cursor 0. -/
theorem load_after_save_not_singleton :
    (handleLoadOutfit stateC2 (handleSaveOutfit stateC2)).history.length = 3 ∧
    (handleLoadOutfit stateC2 (handleSaveOutfit stateC2)).history.length ≠ 1 ∧
    (handleLoadOutfit stateC2 (handleSaveOutfit stateC2)).historyStep = 2 := by
  decide

/-- C2 amended: loading a previously saved session appends the saved
snapshot to the timeline via `addToHistory` (truncating the redo
branch, cursor at the new last index) and the restored current snapshot
equals the one serialized; only the startup restore path replaces the
whole history with the single restored snapshot at cursor 0. -/
theorem load_after_save_roundtrip (s : AppState)
    (h : (currentOutfitHistory s).length ≠ 0) :
    (handleLoadOutfit s (handleSaveOutfit s)).history =
        s.history.take (s.historyStep + 1).toNat ++ [currentOutfitHistory s] ∧
    currentOutfitHistory (handleLoadOutfit s (handleSaveOutfit s)) =
        currentOutfitHistory s ∧
    (handleLoadOutfit s (handleSaveOutfit s)).historyStep =
        ((handleLoadOutfit s (handleSaveOutfit s)).history.length : Int) - 1 ∧
    ∀ (r : SaveRecord) (u : String), r.modelImageUrl = some u → u ≠ "" →
      (startupRestore s (some r)).history = [r.outfitHistory] ∧
      (startupRestore s (some r)).historyStep = 0 := by
  have hsave : handleSaveOutfit s = some
      { modelImageUrl := s.modelImageUrl
      , outfitHistory := currentOutfitHistory s
      , wardrobe := s.wardrobe.filter (fun w => !(idIsRecolor w)) } := by
    unfold handleSaveOutfit
    rw [if_neg h]
  refine ⟨?_, ?_, ?_, ?_⟩
  · rw [hsave]
    unfold handleLoadOutfit addToHistory
    rfl
  · rw [hsave]
    unfold handleLoadOutfit
    exact currentOutfitHistory_addToHistory _ _
  · rw [hsave]
    unfold handleLoadOutfit
    exact addToHistory_historyStep _ _
  · intro r u hru hu
    unfold startupRestore
    dsimp only
    rw [hru]
    dsimp only
    rw [if_neg hu]
    exact ⟨rfl, rfl⟩

/-- C2 witness: the amended round-trip evaluated on `stateC2`. -/
theorem load_after_save_roundtrip_witness :
    (handleLoadOutfit stateC2 (handleSaveOutfit stateC2)).history =
        stateC2.history.take (stateC2.historyStep + 1).toNat ++ [currentOutfitHistory stateC2] ∧
    currentOutfitHistory (handleLoadOutfit stateC2 (handleSaveOutfit stateC2)) =
        currentOutfitHistory stateC2 ∧
    (handleLoadOutfit stateC2 (handleSaveOutfit stateC2)).historyStep =
        ((handleLoadOutfit stateC2 (handleSaveOutfit stateC2)).history.length : Int) - 1 ∧
    ∀ (r : SaveRecord) (u : String), r.modelImageUrl = some u → u ≠ "" →
      (startupRestore stateC2 (some r)).history = [r.outfitHistory] ∧
      (startupRestore stateC2 (some r)).historyStep = 0 :=
  load_after_save_roundtrip stateC2 (by decide)

/-- C7: `handleRemoveLastGarment` is a no-op on a single-layer
snapshot; on length ≥ 2 it commits the snapshot without its last layer
as the new history head with an empty redo branch. -/
theorem removeLastGarment_spec (s : AppState) :
    ((currentOutfitHistory s).length = 1 → handleRemoveLastGarment s = s) ∧
    ((currentOutfitHistory s).length ≥ 2 →
      currentOutfitHistory (handleRemoveLastGarment s) =
          (currentOutfitHistory s).dropLast ∧
      (currentOutfitHistory (handleRemoveLastGarment s)).length =
          (currentOutfitHistory s).length - 1 ∧
      (handleRemoveLastGarment s).history =
          s.history.take (s.historyStep + 1).toNat ++ [(currentOutfitHistory s).dropLast] ∧
      (handleRemoveLastGarment s).historyStep =
          ((handleRemoveLastGarment s).history.length : Int) - 1) := by
  constructor
  · intro h1
    unfold handleRemoveLastGarment
    rw [if_neg (by omega)]
  · intro h2
    have hgt : (currentOutfitHistory s).length > 1 := by omega
    have hc2 : currentOutfitHistory (handleRemoveLastGarment s) =
        (currentOutfitHistory s).dropLast := by
      unfold handleRemoveLastGarment
      rw [if_pos hgt]
      exact (currentOutfitHistory_congr _ _ rfl rfl).trans
        (currentOutfitHistory_addToHistory s _)
    refine ⟨hc2, by rw [hc2, List.length_dropLast], ?_, ?_⟩
    · unfold handleRemoveLastGarment
      rw [if_pos hgt]
      rfl
    · unfold handleRemoveLastGarment
      rw [if_pos hgt]
      exact addToHistory_historyStep s _

/-- C7 witness: removing the last garment on a two-layer snapshot. -/
theorem removeLastGarment_spec_witness :
    currentOutfitHistory (handleRemoveLastGarment stateC2) =
        (currentOutfitHistory stateC2).dropLast ∧
    (currentOutfitHistory (handleRemoveLastGarment stateC2)).length =
        (currentOutfitHistory stateC2).length - 1 ∧
    (handleRemoveLastGarment stateC2).history =
        stateC2.history.take (stateC2.historyStep + 1).toNat ++
          [(currentOutfitHistory stateC2).dropLast] ∧
    (handleRemoveLastGarment stateC2).historyStep =
        ((handleRemoveLastGarment stateC2).history.length : Int) - 1 :=
  (removeLastGarment_spec stateC2).2 (by decide)

/-- C5 counterexample: committing a new snapshot by adding a garment
(`handleGarmentSelect`) does NOT reset the active pose index — here the
commit succeeds (history grows to 2) while `currentPoseIndex` stays 1. -/
theorem garmentSelect_keeps_pose_index :
    (handleGarmentSelect stateC5 garmentC5 "data:image/png;base64,GEN").history.length = 2 ∧
    (handleGarmentSelect stateC5 garmentC5 "data:image/png;base64,GEN").currentPoseIndex ≠ 0 := by
  decide

/-- C5 amended: effective undo, redo and garment removal reset the
active pose index to 0, but committing a garment layer via
`handleGarmentSelect` always leaves the pose index unchanged (the new
layer is keyed under the current pose). -/
theorem pose_index_reset_amended (s : AppState) :
    (s.historyStep > 0 → (undo s).currentPoseIndex = 0) ∧
    (s.historyStep < (s.history.length : Int) - 1 → (redo s).currentPoseIndex = 0) ∧
    ((currentOutfitHistory s).length > 1 →
        (handleRemoveLastGarment s).currentPoseIndex = 0) ∧
    (∀ (g : WardrobeItem) (u : String),
        (handleGarmentSelect s g u).currentPoseIndex = s.currentPoseIndex) := by
  refine ⟨?_, ?_, ?_, ?_⟩
  · intro h
    unfold undo
    rw [if_pos h]
  · intro h
    unfold redo
    rw [if_pos h]
  · intro h
    unfold handleRemoveLastGarment
    rw [if_pos h]
  · intro g u
    unfold handleGarmentSelect
    split
    · rfl
    · rfl

/-- C5 witness: the amended pose-index behaviour on `stateC2`. -/
theorem pose_index_reset_amended_witness :
    (undo stateC2).currentPoseIndex = 0 ∧
    (handleRemoveLastGarment stateC2).currentPoseIndex = 0 ∧
    (handleGarmentSelect stateC2 garmentC5 "data:gen").currentPoseIndex =
      stateC2.currentPoseIndex :=
  ⟨(pose_index_reset_amended stateC2).1 (by decide),
   (pose_index_reset_amended stateC2).2.2.1 (by decide),
   (pose_index_reset_amended stateC2).2.2.2 garmentC5 "data:gen"⟩

/-- C9 counterexample: switching to a different cached pose changes the
displayed image but does NOT clear the style score, so a non-null score
is shown against an image other than the one it was computed for. -/
theorem pose_switch_keeps_style_score :
    displayImageUrl ((handlePoseSelect stateC9 1 "data:g").1) ≠
      displayImageUrl stateC9 ∧
    ((handlePoseSelect stateC9 1 "data:g").1).currentPoseIndex ≠
      stateC9.currentPoseIndex ∧
    ((handlePoseSelect stateC9 1 "data:g").1).styleScore = some ⟨90, "great"⟩ := by
  decide

/-- C9 amended: the style score is cleared by effective undo, redo,
garment commit and garment removal, but pose selection
(`handlePoseSelect`) never clears it — neither on a cache hit nor when
committing a newly generated pose image. -/
theorem style_score_clearing_amended (s : AppState) :
    (s.historyStep > 0 → (undo s).styleScore = none) ∧
    (s.historyStep < (s.history.length : Int) - 1 → (redo s).styleScore = none) ∧
    ((currentOutfitHistory s).length > 1 →
        (handleRemoveLastGarment s).styleScore = none) ∧
    (s.isLoading = false → (displayImageUrl s).isNone = false →
        ∀ (g : WardrobeItem) (u : String),
          (handleGarmentSelect s g u).styleScore = none) ∧
    (∀ (i : Nat) (u : String),
        ((handlePoseSelect s i u).1).styleScore = s.styleScore) := by
  refine ⟨?_, ?_, ?_, ?_, ?_⟩
  · intro h
    unfold undo
    rw [if_pos h]
  · intro h
    unfold redo
    rw [if_pos h]
  · intro h
    unfold handleRemoveLastGarment
    rw [if_pos h]
  · intro hL hD g u
    unfold handleGarmentSelect
    rw [if_neg (by simp [hL, hD])]
  · intro i u
    unfold handlePoseSelect
    split
    · rfl
    · dsimp only
      split
      · rfl
      · split
        · rfl
        · split
          · rfl
          · split
            · rfl
            · rfl

/-- C9 witness: the amended clearing behaviour on concrete states. -/
theorem style_score_clearing_amended_witness :
    (undo stateC2).styleScore = none ∧
    (handleRemoveLastGarment stateC2).styleScore = none ∧
    (handleGarmentSelect stateC2 garmentC5 "data:gen").styleScore = none ∧
    ((handlePoseSelect stateC9 1 "data:g").1).styleScore = stateC9.styleScore :=
  ⟨(style_score_clearing_amended stateC2).1 (by decide),
   (style_score_clearing_amended stateC2).2.2.1 (by decide),
   (style_score_clearing_amended stateC2).2.2.2.1 (by decide) (by decide) garmentC5 "data:gen",
   (style_score_clearing_amended stateC9).2.2.2.2 1 "data:g"⟩

theorem objSpreadSet_of_absent (m : List (String × String)) (k v : String)
    (h : List.lookup k m = none) : objSpreadSet m k v = m ++ [(k, v)] := by
  unfold objSpreadSet
  rw [h]
  rfl

/-- C6: on the last layer of the current snapshot, a pose whose label
already has a (truthy) stored image is a pure cache hit — only the pose
index changes and no generation call is issued — while rendering an
absent pose appends a new binding to `poseImages`, preserving every
existing key/value pair. -/
theorem poseImages_cache_and_growth (s : AppState) (newIndex : Nat)
    (genUrl : String) (layer : OutfitLayer)
    (hL : s.isLoading = false)
    (hne : (currentOutfitHistory s).length ≠ 0)
    (hidx : newIndex ≠ s.currentPoseIndex)
    (hlast : (currentOutfitHistory s).getLast? = some layer) :
    (∀ u : String,
        List.lookup (poseAt newIndex) layer.poseImages = some u →
        u ≠ "" →
        handlePoseSelect s newIndex genUrl =
          ({ s with currentPoseIndex := newIndex }, false)) ∧
    (List.lookup (poseAt newIndex) layer.poseImages = none →
      ∀ fb : String × String, layer.poseImages.head? = some fb → fb.2 ≠ "" →
        (handlePoseSelect s newIndex genUrl).2 = true ∧
        (currentOutfitHistory (handlePoseSelect s newIndex genUrl).1).getLast? =
          some { layer with poseImages :=
            layer.poseImages ++ [(poseAt newIndex, genUrl)] } ∧
        (handlePoseSelect s newIndex genUrl).1.currentPoseIndex = newIndex) := by
  have hguard : ¬(s.isLoading = true ∨ (currentOutfitHistory s).length = 0 ∨
      newIndex = s.currentPoseIndex) := by
    simp [hL, hne, hidx]
  constructor
  · intro u hu hu2
    unfold handlePoseSelect
    rw [if_neg hguard]
    dsimp only
    rw [hlast]
    dsimp only
    rw [if_pos (by simp [truthyStr, hu, hu2])]
  · intro hnone fb hfb hfb2
    set pose := poseAt newIndex with hpose
    set newLayer : OutfitLayer :=
      { layer with poseImages := objSpreadSet layer.poseImages pose genUrl } with hnl
    set newSnap := (currentOutfitHistory s).dropLast ++ [newLayer] with hns
    have hstate : handlePoseSelect s newIndex genUrl =
        ({ addToHistory { s with currentPoseIndex := newIndex } newSnap with
             isLoading := false }, true) := by
      unfold handlePoseSelect
      rw [if_neg hguard]
      dsimp only
      rw [hlast]
      dsimp only
      rw [if_neg (by simp [truthyStr, hnone])]
      rw [hfb]
      dsimp only
      rw [if_neg hfb2]
    have hcur : currentOutfitHistory
        ({ addToHistory { s with currentPoseIndex := newIndex } newSnap with
           isLoading := false }) = newSnap :=
      (currentOutfitHistory_congr _ _ rfl rfl).trans
        (currentOutfitHistory_addToHistory _ _)
    refine ⟨by rw [hstate], ?_, by rw [hstate]; rfl⟩
    rw [hstate]
    dsimp only
    rw [hcur, hns, List.getLast?_concat, hnl,
        objSpreadSet_of_absent layer.poseImages pose genUrl hnone]

/-- C6 witness: cache hit and cache-miss growth on `stateC9`. -/
theorem poseImages_cache_and_growth_witness :
    handlePoseSelect stateC9 1 "data:g6" =
        ({ stateC9 with currentPoseIndex := 1 }, false) ∧
    ((handlePoseSelect stateC9 2 "data:g6").2 = true ∧
      (currentOutfitHistory (handlePoseSelect stateC9 2 "data:g6").1).getLast? =
        some { layerTwoPoses with poseImages :=
          layerTwoPoses.poseImages ++
            [(poseAt 2, "data:g6")] } ∧
      (handlePoseSelect stateC9 2 "data:g6").1.currentPoseIndex = 2) :=
  ⟨(poseImages_cache_and_growth stateC9 1 "data:g6" layerTwoPoses
      (by rfl) (by decide) (by decide) (by rfl)).1
      "data:image/png;base64,CCC" (by rfl) (by decide),
   (poseImages_cache_and_growth stateC9 2 "data:g6" layerTwoPoses
      (by rfl) (by decide) (by decide) (by rfl)).2
      (by rfl) ("Full frontal view, hands on hips", "data:image/png;base64,AAA")
      (by rfl) (by decide)⟩

/-- C10: a successful `handleRecolor` leaves the history store (list,
cursor, current snapshot derivation), the pose index, the style score
and the model image untouched; its only effect is appending exactly one
new WardrobeItem with a fresh `recolor-` id and the generated URL. -/
theorem recolor_frame_effect (s : AppState) (layerIndex : Nat)
    (color genUrl : String) (now : Nat) (layer : OutfitLayer) (g : WardrobeItem)
    (hget : (currentOutfitHistory s).get? layerIndex = some layer)
    (hg : layer.garment = some g)
    (hL : s.isLoading = false) :
    (handleRecolor s layerIndex color genUrl now).history = s.history ∧
    (handleRecolor s layerIndex color genUrl now).historyStep = s.historyStep ∧
    (handleRecolor s layerIndex color genUrl now).currentPoseIndex = s.currentPoseIndex ∧
    (handleRecolor s layerIndex color genUrl now).styleScore = s.styleScore ∧
    (handleRecolor s layerIndex color genUrl now).modelImageUrl = s.modelImageUrl ∧
    (handleRecolor s layerIndex color genUrl now).wardrobe = s.wardrobe ++
      [{ g with
           id := "recolor-" ++ toString now,
           name := g.name ++ " (" ++ colorSecondWord color ++ ")",
           url := genUrl }] := by
  have hstate : handleRecolor s layerIndex color genUrl now =
      { s with
          wardrobe := s.wardrobe ++
            [{ g with
                 id := "recolor-" ++ toString now,
                 name := g.name ++ " (" ++ colorSecondWord color ++ ")",
                 url := genUrl }],
          isLoading := false } := by
    unfold handleRecolor
    rw [hget]
    dsimp only
    rw [hg]
    dsimp only
    rw [if_neg (by simp [hL])]
  rw [hstate]
  exact ⟨rfl, rfl, rfl, rfl, rfl, rfl⟩

/-- C10 witness: recolouring the garment layer of `stateC2`. -/
theorem recolor_frame_effect_witness :
    (handleRecolor stateC2 1 "Royal Azure" "data:rec" 7).history = stateC2.history ∧
    (handleRecolor stateC2 1 "Royal Azure" "data:rec" 7).historyStep = stateC2.historyStep ∧
    (handleRecolor stateC2 1 "Royal Azure" "data:rec" 7).currentPoseIndex = stateC2.currentPoseIndex ∧
    (handleRecolor stateC2 1 "Royal Azure" "data:rec" 7).styleScore = stateC2.styleScore ∧
    (handleRecolor stateC2 1 "Royal Azure" "data:rec" 7).modelImageUrl = stateC2.modelImageUrl ∧
    (handleRecolor stateC2 1 "Royal Azure" "data:rec" 7).wardrobe = stateC2.wardrobe ++
      [{ (⟨"studio-tee", "Signature Tee", "https://example/tee.png"⟩ : WardrobeItem) with
           id := "recolor-" ++ toString 7,
           name := "Signature Tee" ++ " (" ++ colorSecondWord "Royal Azure" ++ ")",
           url := "data:rec" }] :=
  recolor_frame_effect stateC2 1 "Royal Azure" "data:rec" 7 garmentLayerB
    ⟨"studio-tee", "Signature Tee", "https://example/tee.png"⟩
    (by decide) (by rfl) (by rfl)

/-- C3 counterexample: with the image-operation budget
(`MAX_RETRIES = 3`), `retryWithBackoff` performs 3 backoff delays and
returns the FOURTH attempt's result — the total attempt count is 4, not
the claimed 3 (and likewise 3, not 2, for critique's budget of 2). -/
theorem retry_four_attempts :
    retryWithBackoff fnFourth MAX_RETRIES RETRY_DELAY_MS 0 =
      (.ok "data:done", [1000, 2000, 4000]) ∧
    (retryWithBackoff fnFourth MAX_RETRIES RETRY_DELAY_MS 0).2.length + 1 = 4 := by
  constructor
  · rfl
  · rfl

/-- C3 amended: `retryWithBackoff` makes at most `retries + 1` total
attempts — up to 4 for image operations (budget 3) and up to 3 for
critique (budget 2) — the backoff delay doubles on each successive
retry, and an operation failing retryably twice then succeeding incurs
exactly 2 delays `[d, 2d]` and returns the third attempt's result. -/
theorem retry_backoff_amended :
    (∀ (α : Type) (fn : Nat → Except String α) (retries delay k : Nat),
        (retryWithBackoff fn retries delay k).2.length ≤ retries) ∧
    (∀ (α : Type) (fn : Nat → Except String α) (r d : Nat) (m0 m1 : String) (v : α),
        fn 0 = .error m0 → nonRetryableMsg m0 = false →
        fn 1 = .error m1 → nonRetryableMsg m1 = false →
        fn 2 = .ok v →
        retryWithBackoff fn (r + 2) d 0 = (.ok v, [d, d * 2])) := by
  constructor
  · intro α fn retries
    induction retries with
    | zero =>
      intro delay k
      unfold retryWithBackoff
      cases hfn : fn k with
      | ok v => simp
      | error m => split <;> simp
    | succ r ih =>
      intro delay k
      unfold retryWithBackoff
      cases hfn : fn k with
      | ok v => simp
      | error m =>
        dsimp only
        by_cases hnr : nonRetryableMsg m = true
        · rw [if_pos hnr]
          simp
        · rw [if_neg hnr]
          dsimp only
          exact Nat.succ_le_succ (ih (delay * 2) (k + 1))
  · intro α fn r d m0 m1 v h0 hr0 h1 hr1 h2
    unfold retryWithBackoff
    rw [h0]
    simp only [hr0, Bool.false_eq_true, if_false]
    unfold retryWithBackoff
    rw [show (0 + 1 : Nat) = 1 from rfl, h1]
    simp only [hr1, Bool.false_eq_true, if_false]
    unfold retryWithBackoff
    rw [show (1 + 1 : Nat) = 2 from rfl, h2]

/-- C3 witness: the fails-twice-then-succeeds scenario with the image
budget: 2 delays `[1000, 2000]`, third attempt's result returned. -/
theorem retry_backoff_amended_witness :
    retryWithBackoff twoFailThenOk MAX_RETRIES RETRY_DELAY_MS 0 =
      (.ok "data:done", [1000, 1000 * 2]) :=
  retry_backoff_amended.2 String twoFailThenOk 1 1000 "network error" "network error"
    "data:done" rfl (by decide) rfl (by decide) rfl

/-- C4: failures whose message carries one of the non-retryable markers
(safety rejection, API-key / 403 authentication, invalid request)
propagate immediately with zero backoff delays and no retry, while the
per-attempt timeout message is classified retryable and a timed-out
first attempt is retried while budget remains. -/
theorem retry_error_classification :
    (∀ (α : Type) (fn : Nat → Except String α) (m : String) (r d k : Nat),
        fn k = .error m → nonRetryableMsg m = true →
        retryWithBackoff fn r d k = (.error m, [])) ∧
    (∀ m : String,
        (strIncludes m "SAFETY" = true ∨ strIncludes m "API_KEY" = true ∨
         strIncludes m "403" = true ∨ strIncludes m "invalid" = true) →
        nonRetryableMsg m = true) ∧
    nonRetryableMsg timeoutMessage = false ∧
    (∀ (α : Type) (fn : Nat → Except String α) (r d : Nat) (v : α),
        fn 0 = .error timeoutMessage → fn 1 = .ok v →
        retryWithBackoff fn (r + 1) d 0 = (.ok v, [d])) := by
  have hto : nonRetryableMsg timeoutMessage = false := by decide
  refine ⟨?_, ?_, hto, ?_⟩
  · intro α fn m r d k hf hm
    unfold retryWithBackoff
    rw [hf]
    simp [hm]
  · intro m h
    unfold nonRetryableMsg
    rcases h with h | h | h | h <;> simp [h]
  · intro α fn r d v h0 h1
    unfold retryWithBackoff
    rw [h0]
    simp only [hto, Bool.false_eq_true, if_false]
    unfold retryWithBackoff
    rw [show (0 + 1 : Nat) = 1 from rfl, h1]

/-- C4 witness: a safety rejection propagates with zero delays; a
timeout on the first attempt is retried once and the retry's result is
returned. -/
theorem retry_error_classification_witness :
    retryWithBackoff safetyFailFn MAX_RETRIES RETRY_DELAY_MS 0 =
      (.error "SAFETY: The studio's safety filters flagged this image. Please use a professional-style portrait.", []) ∧
    retryWithBackoff timeoutThenOkFn MAX_RETRIES RETRY_DELAY_MS 0 =
      (.ok "data:done", [1000]) :=
  ⟨retry_error_classification.1 String safetyFailFn
      "SAFETY: The studio's safety filters flagged this image. Please use a professional-style portrait."
      3 1000 0 rfl (by decide),
   retry_error_classification.2.2.2 String timeoutThenOkFn 2 1000 "data:done" rfl rfl⟩

theorem scoreFromParsed_eq_fallback (parsed : Option JValue)
    (h : scoreWellFormed parsed = false) :
    scoreFromParsed parsed = scoreFallback := by
  cases parsed with
  | none => rfl
  | some v =>
    unfold scoreWellFormed at h
    dsimp only at h
    unfold scoreFromParsed
    dsimp only
    split
    · rename_i n r hs hr
      rw [hs, hr] at h
      simp at h
    · rfl

/-- C8: when the critique request itself succeeds but its response text
is absent, unparsable, or fails the score/review shape validation,
`generateStyleScore` resolves without error to the fixed fallback with
score 85 and the declared review text, consuming no retries. -/
theorem critique_unparsable_fallback (responses : Nat → Except String (Option JValue))
    (parsed : Option JValue)
    (h0 : responses 0 = .ok parsed)
    (hbad : scoreWellFormed parsed = false) :
    generateStyleScoreModel responses = (.ok scoreFallback, []) ∧
    scoreFallback.score = 85 := by
  refine ⟨?_, rfl⟩
  unfold generateStyleScoreModel retryWithBackoff
  dsimp only
  rw [show generateStyleScoreAttempt (responses 0) = .ok (scoreFromParsed parsed) by
      rw [h0]; rfl]
  rw [scoreFromParsed_eq_fallback parsed hbad]

/-- C8 witness: the fallback on a concrete unparsable response. -/
theorem critique_unparsable_fallback_witness :
    generateStyleScoreModel unparsableResponses = (.ok scoreFallback, []) ∧
    scoreFallback.score = 85 :=
  critique_unparsable_fallback unparsableResponses (some (.jstr "oops")) rfl rfl

/-- C1 witness: the commit at the end of a concrete operation sequence
leaves the cursor at the last index. -/
theorem history_linearity_invariant_witness :
    (runOps ([HOp.commit [baseLayerA], HOp.hundo] ++ [HOp.commit []])).historyStep =
      ((runOps ([HOp.commit [baseLayerA], HOp.hundo] ++ [HOp.commit []])).history.length : Int) - 1 :=
  (history_linearity_invariant [HOp.commit [baseLayerA], HOp.hundo]).2 []
